import Mathlib

/-!
Verification development for the match-making handler of the repository
(supabase/functions/find-match/index.ts) together with the storage
constraints of the matches table (schema file: UNIQUE(profile1_id,
profile2_id) and CHECK (profile1_id != profile2_id)).

The handler is embedded shallowly: the durable database state is a pair of
tables (profiles, matches) modelled as lists of rows; every storage round
trip that can fail is driven by an explicit environment record so that each
failure branch of the handler is reachable.  The embedding follows the
source line by line:

  - missing Authorization header: the source reads the header with a
    non-null assertion and calls .replace on it, so a missing header throws
    a TypeError that is caught by the catch-all branch (500, generic error
    field, details = thrown message);
  - invalid credential: getUser yields an error or no user, the handler
    returns 401 with body error Unauthorized;
  - step 1: update profiles set is_searching = true, updated_at = now where
    id = caller; on error 500 with Failed to update search status;
  - step 2: select id,name,bio,age,location,gender,interests from profiles
    where is_searching and is_active and id != caller limit 1; on error 500
    with Failed to search for matches;
  - step 3: empty result gives 200 searching with the caller id;
  - step 4: canonical ordering, smaller id first;
  - step 5: insert into matches (status matched, match_score 0.85); the
    storage engine refuses the row on an injected fault, on a duplicate
    canonical pair (UNIQUE) or on equal members (CHECK); on refusal 500
    with Failed to create match;
  - step 6: update profiles set is_searching = false where id in (caller,
    candidate); a failure here is swallowed;
  - success: 200 matched carrying the new row id, the candidate view, the
    match score and the creation timestamp.
-/

/-- A row of the profiles table, restricted to the columns the handler
reads or writes (id, is_active, is_searching, updated_at) and the columns
of the step-2 select (name, bio, age, location, gender, interests). -/
structure Profile where
  id : String
  name : String
  bio : Option String
  age : Option Int
  location : Option String
  gender : Option String
  interests : String
  is_active : Bool
  is_searching : Bool
  updated_at : String
deriving DecidableEq, Repr

/-- A row of the matches table. -/
structure MatchRow where
  id : String
  profile1_id : String
  profile2_id : String
  status : String
  match_score : ℚ
  created_at : String
  updated_at : String
deriving DecidableEq, Repr

/-- The durable state: the two tables the handler touches. -/
structure DBState where
  profiles : List Profile
  matchRows : List MatchRow
deriving DecidableEq, Repr

/-- The candidate fields the handler copies into the matched response
(the step-2 select list). -/
structure MatchedUserView where
  id : String
  name : String
  bio : Option String
  age : Option Int
  location : Option String
  gender : Option String
  interests : String
deriving DecidableEq, Repr

/-- Response bodies of the handler, one constructor per JSON shape the
source serializes; the string fields carry the exact literals. -/
inductive Body where
  | unauthorized (error : String)
  | storageError (error : String)
  | searching (message : String) (userId : String)
  | matched (message : String) (matchId : String) (matchedUser : MatchedUserView)
      (matchScore : ℚ) (createdAt : String)
  | internalError (error : String) (details : String)
deriving DecidableEq, Repr

/-- An HTTP-level response: status code plus JSON body. -/
structure Response where
  status : Nat
  body : Body
deriving DecidableEq, Repr

/-- The environment of one invocation: the outcome of the credential check
and the injected outcome of every fallible storage round trip, plus the
values the platform generates (row id, clock, message of a thrown error). -/
structure Env where
  authHeaderPresent : Bool
  authResult : Option String
  nullErrorMsg : String
  step1Fails : Bool
  step2Fails : Bool
  insertFails : Bool
  step6Fails : Bool
  newMatchId : String
  now : String
deriving DecidableEq, Repr

/-- Step 1 write: update profiles set is_searching = true, updated_at = now
where id = uid. -/
def profilesSetSearching (ps : List Profile) (uid : String) (now : String) :
    List Profile :=
  ps.map fun p =>
    if p.id = uid then { p with is_searching := true, updated_at := now } else p

/-- Step 6 write: update profiles set is_searching = false, updated_at = now
where id in ids. -/
def profilesClearSearching (ps : List Profile) (ids : List String)
    (now : String) : List Profile :=
  ps.map fun p =>
    if p.id ∈ ids then { p with is_searching := false, updated_at := now } else p

/-- Step 2 query: the rows with is_searching = true, is_active = true and
id different from the caller; the handler takes the first one (limit 1). -/
def candidates (ps : List Profile) (uid : String) : List Profile :=
  ps.filter fun p => p.is_searching && p.is_active && p.id != uid

/-- Strict less-than on characters by code point, as the host language
compares string elements. -/
def charLt (a b : Char) : Bool :=
  a.val < b.val

/-- Lexicographic strict less-than on character lists. -/
def listLt : List Char → List Char → Bool
  | [], [] => false
  | [], _ :: _ => true
  | _ :: _, [] => false
  | a :: as, b :: bs => charLt a b || (a == b && listLt as bs)

/-- Strict less-than on identities, the comparison the source performs with
the string less-than of the host language. -/
def strLt (a b : String) : Bool :=
  listLt a.data b.data

/-- Step 4: smaller identity first (the source compares with the string
less-than of the host language). -/
def canonicalPair (a b : String) : String × String :=
  if strLt a b then (a, b) else (b, a)

/-- The placeholder compatibility score the handler writes (0.85). -/
def matchScore : ℚ := mkRat 85 100

/-- The row the step-5 insert submits for caller uid and candidate cid. -/
def attemptedRow (env : Env) (uid : String) (cid : String) : MatchRow :=
  { id := env.newMatchId
    profile1_id := (canonicalPair uid cid).1
    profile2_id := (canonicalPair uid cid).2
    status := "matched"
    match_score := matchScore
    created_at := env.now
    updated_at := env.now }

/-- UNIQUE(profile1_id, profile2_id): the insert conflicts when a stored
row already has the same ordered pair. -/
def uniqueViolation (ms : List MatchRow) (r : MatchRow) : Bool :=
  ms.any fun m => m.profile1_id == r.profile1_id && m.profile2_id == r.profile2_id

/-- CHECK (profile1_id != profile2_id) on the matches table. -/
def checkViolation (r : MatchRow) : Bool :=
  r.profile1_id == r.profile2_id

/-- Step 5 insert as the storage engine performs it: refused on an injected
fault, a uniqueness conflict or a check-constraint violation, appended
otherwise. -/
def matchesInsert (fail : Bool) (ms : List MatchRow) (r : MatchRow) :
    Option (List MatchRow) :=
  if fail || uniqueViolation ms r || checkViolation r then none
  else some (ms ++ [r])

/-- The response view of a candidate profile. -/
def viewOf (p : Profile) : MatchedUserView :=
  { id := p.id, name := p.name, bio := p.bio, age := p.age,
    location := p.location, gender := p.gender, interests := p.interests }

/-- The full handler, one invocation: from environment and durable state to
the HTTP response and the state after all writes. -/
def requestMatch (env : Env) (s : DBState) : Response × DBState :=
  if env.authHeaderPresent = false then
    (⟨500, Body.internalError ("Internal server error") env.nullErrorMsg⟩, s)
  else
    match env.authResult with
    | none => (⟨401, Body.unauthorized ("Unauthorized")⟩, s)
    | some userId =>
      if env.step1Fails = true then
        (⟨500, Body.storageError ("Failed to update search status")⟩, s)
      else
        if env.step2Fails = true then
          (⟨500, Body.storageError ("Failed to search for matches")⟩,
           ⟨profilesSetSearching s.profiles userId env.now, s.matchRows⟩)
        else
          match candidates (profilesSetSearching s.profiles userId env.now) userId with
          | [] =>
            (⟨200, Body.searching ("Looking for your perfect match...") userId⟩,
             ⟨profilesSetSearching s.profiles userId env.now, s.matchRows⟩)
          | c :: _ =>
            match matchesInsert env.insertFails s.matchRows (attemptedRow env userId c.id) with
            | none =>
              (⟨500, Body.storageError ("Failed to create match")⟩,
               ⟨profilesSetSearching s.profiles userId env.now, s.matchRows⟩)
            | some ms =>
              (⟨200, Body.matched ("Match found!") env.newMatchId (viewOf c)
                  matchScore env.now⟩,
               if env.step6Fails = true then
                 ⟨profilesSetSearching s.profiles userId env.now, ms⟩
               else
                 ⟨profilesClearSearching (profilesSetSearching s.profiles userId env.now)
                    [userId, c.id] env.now, ms⟩)

/-- Fixture: caller profile, active, not yet searching. -/
def pU1 : Profile :=
  { id := "u1", name := "Alice", bio := none, age := none, location := none,
    gender := none, interests := "[]", is_active := true,
    is_searching := false, updated_at := "t0" }

/-- Fixture: candidate profile, active and searching. -/
def pU2 : Profile :=
  { id := "u2", name := "Bob", bio := some ("hi"), age := some 30,
    location := some ("Berlin"), gender := some ("male"), interests := "[]",
    is_active := true, is_searching := true, updated_at := "t0" }

/-- Fixture: an inactive caller profile. -/
def pU1inactive : Profile :=
  { pU1 with is_active := false }

/-- Fixture environment: valid credential for u1, every storage round trip
succeeds. -/
def envOk : Env :=
  { authHeaderPresent := true, authResult := some ("u1"), nullErrorMsg := "",
    step1Fails := false, step2Fails := false, insertFails := false,
    step6Fails := false, newMatchId := "m1", now := "t1" }

/-- Fixture state: both profiles present, no match rows. -/
def sAB : DBState := ⟨[pU1, pU2], []⟩

/-- Fixture state: the caller is the only profile. -/
def sAlone : DBState := ⟨[pU1], []⟩

/-- Fixture state: the caller profile is inactive, the candidate is active
and searching. -/
def sInactive : DBState := ⟨[pU1inactive, pU2], []⟩

/-- Fixture: a pre-existing match row for the canonical pair (u1, u2) with
status rejected. -/
def rowPrev : MatchRow :=
  { id := "m0", profile1_id := "u1", profile2_id := "u2", status := "rejected",
    match_score := matchScore, created_at := "t0", updated_at := "t0" }

/-- Fixture state: both profiles present and a match row for the pair
already stored. -/
def sDup : DBState := ⟨[pU1, pU2], [rowPrev]⟩

/-- Fixture environment: the Authorization header is absent, so the handler
throws before authenticating; the thrown message is the TypeError text of
the host runtime. -/
def envNoHeader : Env :=
  { envOk with
      authHeaderPresent := false
      nullErrorMsg := "TypeError: Cannot read properties of null (reading replace)" }

/-- Fixture environment: like envNoHeader but the internal fault carries a
different message. -/
def envNoHeader2 : Env :=
  { envNoHeader with nullErrorMsg := "some other internal cause" }

/-- Fixture environment: the credential does not verify. -/
def envBadToken : Env :=
  { envOk with authResult := none }

/-- Fixture environment: the step-5 insert fails. -/
def envInsertFail : Env :=
  { envOk with insertFails := true }

/-- Fixture environment: the step-6 flag-clearing write fails. -/
def envStep6Fail : Env :=
  { envOk with step6Fails := true }

/-- The match row the happy-path fixture run inserts. -/
def rowW : MatchRow :=
  { id := "m1", profile1_id := "u1", profile2_id := "u2", status := "matched",
    match_score := matchScore, created_at := "t1", updated_at := "t1" }

lemma charLt_iff (a b : Char) : charLt a b = true ↔ a < b := by
  unfold charLt
  rw [decide_eq_true_iff]
  exact Iff.rfl

lemma listLt_iff (l : List Char) : ∀ m, listLt l m = true ↔ l.lt m := by
  induction l with
  | nil =>
    intro m
    cases m with
    | nil =>
      constructor
      · intro h; exact absurd h (by decide)
      · intro h; cases h
    | cons b bs =>
      constructor
      · intro _; exact List.lt.nil b bs
      · intro _; rfl
  | cons a as ih =>
    intro m
    cases m with
    | nil =>
      constructor
      · intro h; simp [listLt] at h
      · intro h; cases h
    | cons b bs =>
      simp only [listLt, Bool.or_eq_true, Bool.and_eq_true, beq_iff_eq,
        charLt_iff, ih bs]
      constructor
      · rintro (h | ⟨rfl, h⟩)
        · exact List.lt.head as bs h
        · exact List.lt.tail (lt_irrefl a) (lt_irrefl a) h
      · intro h
        cases h with
        | head _ _ h => exact Or.inl h
        | tail h1 h2 h3 =>
          exact Or.inr ⟨le_antisymm (not_lt.mp h2) (not_lt.mp h1), h3⟩

lemma strLt_iff (a b : String) : strLt a b = true ↔ a < b := by
  rw [String.lt_iff_toList_lt]
  show strLt a b = true ↔ List.Lex (· < ·) a.data b.data
  rw [← List.lt_iff_lex_lt]
  exact listLt_iff a.data b.data

lemma canonicalPair_eq (a b : String) : canonicalPair a b = (min a b, max a b) := by
  unfold canonicalPair
  cases h : strLt a b with
  | true =>
    have hab : a < b := (strLt_iff a b).mp h
    simp [min_eq_left hab.le, max_eq_right hab.le]
  | false =>
    have hba : b ≤ a := by
      by_contra hc
      exact absurd ((strLt_iff a b).mpr (not_le.mp hc)) (by simp [h])
    simp [min_eq_right hba, max_eq_left hba]

lemma min_ne_max_of_ne {a b : String} (hab : a ≠ b) : min a b ≠ max a b := by
  rcases le_total a b with h | h
  · rw [min_eq_left h, max_eq_right h]; exact hab
  · rw [min_eq_right h, max_eq_left h]; exact fun e => hab e.symm

lemma canonicalPair_ne {a b : String} (hab : a ≠ b) :
    (canonicalPair a b).1 ≠ (canonicalPair a b).2 := by
  rw [canonicalPair_eq]
  exact min_ne_max_of_ne hab

lemma mem_setSearching_of_id {ps : List Profile} {uid now : String} {p : Profile}
    (hp : p ∈ profilesSetSearching ps uid now) (hid : p.id = uid) :
    p.is_searching = true := by
  unfold profilesSetSearching at hp
  obtain ⟨q, hq, hpq⟩ := List.mem_map.mp hp
  by_cases h : q.id = uid
  · rw [if_pos h] at hpq
    rw [← hpq]
  · rw [if_neg h] at hpq
    rw [← hpq] at hid
    exact absurd hid h

lemma mem_setSearching_src {ps : List Profile} {uid now : String} {p : Profile}
    (hp : p ∈ profilesSetSearching ps uid now) :
    ∃ q ∈ ps, q.id = p.id ∧ q.is_active = p.is_active := by
  unfold profilesSetSearching at hp
  obtain ⟨q, hq, hpq⟩ := List.mem_map.mp hp
  refine ⟨q, hq, ?_⟩
  by_cases h : q.id = uid
  · rw [if_pos h] at hpq
    rw [← hpq]
    exact ⟨rfl, rfl⟩
  · rw [if_neg h] at hpq
    rw [← hpq]
    exact ⟨rfl, rfl⟩

lemma mem_clearSearching_of_id {ps : List Profile} {ids : List String}
    {now : String} {p : Profile}
    (hp : p ∈ profilesClearSearching ps ids now) (hid : p.id ∈ ids) :
    p.is_searching = false := by
  unfold profilesClearSearching at hp
  obtain ⟨q, hq, hpq⟩ := List.mem_map.mp hp
  by_cases h : q.id ∈ ids
  · rw [if_pos h] at hpq
    rw [← hpq]
  · rw [if_neg h] at hpq
    rw [← hpq] at hid
    exact absurd hid h

lemma candidates_head_spec {ps : List Profile} {uid : String} {c : Profile}
    {rest : List Profile} (hc : candidates ps uid = c :: rest) :
    c ∈ ps ∧ c.is_searching = true ∧ c.is_active = true ∧ c.id ≠ uid := by
  have hmem : c ∈ candidates ps uid := by
    rw [hc]; exact List.mem_cons_self c rest
  unfold candidates at hmem
  obtain ⟨hin, hpred⟩ := List.mem_filter.mp hmem
  simp only [Bool.and_eq_true, bne_iff_ne] at hpred
  exact ⟨hin, hpred.1.1, hpred.1.2, hpred.2⟩

lemma matchesInsert_some {f : Bool} {ms ms2 : List MatchRow} {r : MatchRow}
    (h : matchesInsert f ms r = some ms2) :
    ms2 = ms ++ [r] ∧ f = false ∧ uniqueViolation ms r = false ∧
      checkViolation r = false := by
  unfold matchesInsert at h
  by_cases hg : (f || uniqueViolation ms r || checkViolation r) = true
  · rw [if_pos hg] at h
    exact absurd h (by simp)
  · rw [if_neg hg] at h
    simp only [Bool.or_eq_true, not_or, Bool.not_eq_true] at hg
    exact ⟨(Option.some.injEq _ _ ▸ h).symm, hg.1.1, hg.1.2, hg.2⟩

lemma matchesInsert_none_of_dup (f : Bool) (ms : List MatchRow) (r : MatchRow)
    {m : MatchRow} (hm : m ∈ ms) (h1 : m.profile1_id = r.profile1_id)
    (h2 : m.profile2_id = r.profile2_id) :
    matchesInsert f ms r = none := by
  have hu : uniqueViolation ms r = true := by
    unfold uniqueViolation
    rw [List.any_eq_true]
    exact ⟨m, hm, by simp [h1, h2]⟩
  unfold matchesInsert
  rw [if_pos (by simp [hu])]

/-- C1: for every successful pairing (a Matched outcome) the inserted Match
row has profile1Id equal to the smaller and profile2Id equal to the larger
of the two identities (caller and matched user), under the identity
ordering, regardless of which one was the caller. -/
theorem requestMatch_matched_canonical_pair (env : Env) (s : DBState)
    (resp : Response) (s2 : DBState) (u mid : String) (mu : MatchedUserView)
    (q : ℚ) (ts : String)
    (hrun : requestMatch env s = (resp, s2))
    (hu : env.authResult = some u)
    (hm : resp.body = Body.matched ("Match found!") mid mu q ts) :
    ∃ r, s2.matchRows = s.matchRows ++ [r] ∧
      r.profile1_id = min u mu.id ∧ r.profile2_id = max u mu.id := by
  unfold requestMatch at hrun
  split at hrun
  · injection hrun with hr hs
    subst hr; simp at hm
  · split at hrun
    · injection hrun with hr hs
      subst hr; simp at hm
    · rename_i userId hau
      split at hrun
      · injection hrun with hr hs
        subst hr; simp at hm
      · split at hrun
        · injection hrun with hr hs
          subst hr; simp at hm
        · split at hrun
          · injection hrun with hr hs
            subst hr; simp at hm
          · rename_i c rest hcand
            split at hrun
            · injection hrun with hr hs
              subst hr; simp at hm
            · rename_i ms hins
              injection hrun with hr hs
              subst hr
              obtain ⟨hms, hf, hq2, hchk⟩ := matchesInsert_some hins
              have huid : userId = u := by
                rw [hau] at hu
                exact Option.some.inj hu
              subst huid
              have hmu : mu = viewOf c := by
                injection hm with h1 h2 h3 h4 h5
                exact h3.symm
              subst hmu
              refine ⟨attemptedRow env userId c.id, ?_, ?_, ?_⟩
              · rw [← hs]
                by_cases h6 : env.step6Fails = true
                · rw [if_pos h6]; exact hms
                · rw [if_neg h6]; exact hms
              · show (canonicalPair userId c.id).1 = min userId (viewOf c).id
                rw [canonicalPair_eq]
                exact rfl
              · show (canonicalPair userId c.id).2 = max userId (viewOf c).id
                rw [canonicalPair_eq]
                exact rfl

/-- C1 witness: the happy-path fixture run pairs u1 with u2 and stores the
canonically ordered row. -/
theorem requestMatch_matched_canonical_pair_witness :
    envOk.authResult = some ("u1") ∧
    (requestMatch envOk sAB).1.body =
      Body.matched ("Match found!") ("m1") (viewOf pU2) matchScore ("t1") ∧
    ∃ r, (requestMatch envOk sAB).2.matchRows = sAB.matchRows ++ [r] ∧
      r.profile1_id = min ("u1") (viewOf pU2).id ∧
      r.profile2_id = max ("u1") (viewOf pU2).id :=
  ⟨rfl, by decide,
    requestMatch_matched_canonical_pair envOk sAB ((requestMatch envOk sAB).1)
      ((requestMatch envOk sAB).2) ("u1") ("m1") (viewOf pU2) matchScore ("t1")
      rfl rfl (by decide)⟩

/-- C2: the handler never creates a Match row whose two member identities
coincide; in particular no row with both members equal to the caller: any
row present after a run and not present before has distinct members. -/
theorem requestMatch_no_self_match (env : Env) (s : DBState) (resp : Response)
    (s2 : DBState) (r : MatchRow)
    (hrun : requestMatch env s = (resp, s2))
    (hmem : r ∈ s2.matchRows) (hnew : r ∉ s.matchRows) :
    r.profile1_id ≠ r.profile2_id := by
  unfold requestMatch at hrun
  split at hrun
  · injection hrun with hr hs
    subst hs; exact absurd hmem hnew
  · split at hrun
    · injection hrun with hr hs
      subst hs; exact absurd hmem hnew
    · split at hrun
      · injection hrun with hr hs
        subst hs; exact absurd hmem hnew
      · split at hrun
        · injection hrun with hr hs
          subst hs; exact absurd hmem hnew
        · split at hrun
          · injection hrun with hr hs
            subst hs; exact absurd hmem hnew
          · split at hrun
            · injection hrun with hr hs
              subst hs; exact absurd hmem hnew
            · rename_i ms hins
              injection hrun with hr hs
              subst hs
              obtain ⟨hms, hf, hq2, hchk⟩ := matchesInsert_some hins
              have hmem2 : r ∈ ms := by
                by_cases h6 : env.step6Fails = true
                · rw [if_pos h6] at hmem; exact hmem
                · rw [if_neg h6] at hmem; exact hmem
              rw [hms] at hmem2
              rcases List.mem_append.mp hmem2 with h | h
              · exact absurd h hnew
              · have hr2 := List.mem_singleton.mp h
                subst hr2
                simpa [checkViolation] using hchk

/-- C2 witness: the row inserted by the happy-path fixture run is new and
has two distinct members. -/
theorem requestMatch_no_self_match_witness :
    rowW ∈ (requestMatch envOk sAB).2.matchRows ∧ rowW ∉ sAB.matchRows ∧
    rowW.profile1_id ≠ rowW.profile2_id :=
  ⟨by decide, by decide,
    requestMatch_no_self_match envOk sAB ((requestMatch envOk sAB).1)
      ((requestMatch envOk sAB).2) rowW rfl (by decide) (by decide)⟩

/-- C4: for an authenticated invocation whose candidate query succeeds but
returns no row, the handler answers 200 searching with the caller id,
creates no Match row, and leaves the caller flagged as searching. -/
theorem requestMatch_no_candidate_searching (env : Env) (s : DBState)
    (resp : Response) (s2 : DBState) (u : String)
    (hrun : requestMatch env s = (resp, s2))
    (hA : env.authHeaderPresent = true)
    (hu : env.authResult = some u)
    (h1 : env.step1Fails = false)
    (h2 : env.step2Fails = false)
    (hc : candidates (profilesSetSearching s.profiles u env.now) u = []) :
    resp = ⟨200, Body.searching ("Looking for your perfect match...") u⟩ ∧
    s2.matchRows = s.matchRows ∧
    ∀ p ∈ s2.profiles, p.id = u → p.is_searching = true := by
  unfold requestMatch at hrun
  rw [hA, hu, h1, h2] at hrun
  simp only [Bool.true_eq_false, Bool.false_eq_true, if_false, reduceIte] at hrun
  rw [hc] at hrun
  simp only [Prod.mk.injEq] at hrun
  obtain ⟨hr, hs⟩ := hrun
  subst hs
  refine ⟨hr.symm, rfl, ?_⟩
  intro p hp hid
  exact mem_setSearching_of_id hp hid

/-- C4 witness: with the caller alone in the table, the fixture run stays
in searching state. -/
theorem requestMatch_no_candidate_searching_witness :
    candidates (profilesSetSearching sAlone.profiles ("u1") envOk.now) ("u1") = [] ∧
    ((requestMatch envOk sAlone).1 =
        ⟨200, Body.searching ("Looking for your perfect match...") ("u1")⟩ ∧
      (requestMatch envOk sAlone).2.matchRows = sAlone.matchRows ∧
      ∀ p ∈ (requestMatch envOk sAlone).2.profiles, p.id = ("u1") →
        p.is_searching = true) :=
  ⟨by decide,
    requestMatch_no_candidate_searching envOk sAlone ((requestMatch envOk sAlone).1)
      ((requestMatch envOk sAlone).2) ("u1") rfl rfl rfl rfl rfl (by decide)⟩

/-- C5: when the step-5 insert fails the handler answers 500 Failed to
create match, stores no Match row, and leaves the caller flagged as
searching, so a retry is possible. -/
theorem requestMatch_insert_failure (env : Env) (s : DBState)
    (resp : Response) (s2 : DBState) (u : String) (c : Profile)
    (rest : List Profile)
    (hrun : requestMatch env s = (resp, s2))
    (hA : env.authHeaderPresent = true)
    (hu : env.authResult = some u)
    (h1 : env.step1Fails = false)
    (h2 : env.step2Fails = false)
    (hcand : candidates (profilesSetSearching s.profiles u env.now) u = c :: rest)
    (hins : matchesInsert env.insertFails s.matchRows (attemptedRow env u c.id) = none) :
    resp = ⟨500, Body.storageError ("Failed to create match")⟩ ∧
    s2.matchRows = s.matchRows ∧
    ∀ p ∈ s2.profiles, p.id = u → p.is_searching = true := by
  unfold requestMatch at hrun
  rw [hA, hu, h1, h2] at hrun
  simp only [Bool.true_eq_false, Bool.false_eq_true, if_false, reduceIte] at hrun
  rw [hcand] at hrun
  simp only [Bool.false_eq_true, if_false, reduceIte] at hrun
  rw [hins] at hrun
  simp only [Prod.mk.injEq] at hrun
  obtain ⟨hr, hs⟩ := hrun
  subst hs
  refine ⟨hr.symm, rfl, ?_⟩
  intro p hp hid
  exact mem_setSearching_of_id hp hid

/-- C5 witness: with the insert failing, the fixture run answers 500,
stores nothing, and leaves u1 searching. -/
theorem requestMatch_insert_failure_witness :
    candidates (profilesSetSearching sAB.profiles ("u1") envInsertFail.now) ("u1") =
      pU2 :: [] ∧
    matchesInsert envInsertFail.insertFails sAB.matchRows
      (attemptedRow envInsertFail ("u1") pU2.id) = none ∧
    ((requestMatch envInsertFail sAB).1 =
        ⟨500, Body.storageError ("Failed to create match")⟩ ∧
      (requestMatch envInsertFail sAB).2.matchRows = sAB.matchRows ∧
      ∀ p ∈ (requestMatch envInsertFail sAB).2.profiles, p.id = ("u1") →
        p.is_searching = true) :=
  ⟨by decide, by decide,
    requestMatch_insert_failure envInsertFail sAB
      ((requestMatch envInsertFail sAB).1) ((requestMatch envInsertFail sAB).2)
      ("u1") pU2 [] rfl rfl rfl rfl rfl (by decide) (by decide)⟩

/-- C6: on a Matched outcome in which the step-6 write succeeds, both the
caller and the candidate end with is_searching = false. -/
theorem requestMatch_matched_clears_searching (env : Env) (s : DBState)
    (resp : Response) (s2 : DBState) (u : String) (c : Profile)
    (rest : List Profile) (ms : List MatchRow)
    (hrun : requestMatch env s = (resp, s2))
    (hA : env.authHeaderPresent = true)
    (hu : env.authResult = some u)
    (h1 : env.step1Fails = false)
    (h2 : env.step2Fails = false)
    (hcand : candidates (profilesSetSearching s.profiles u env.now) u = c :: rest)
    (hins : matchesInsert env.insertFails s.matchRows (attemptedRow env u c.id) = some ms)
    (h6 : env.step6Fails = false) :
    resp = ⟨200, Body.matched ("Match found!") env.newMatchId (viewOf c)
      matchScore env.now⟩ ∧
    ∀ p ∈ s2.profiles, (p.id = u ∨ p.id = c.id) → p.is_searching = false := by
  unfold requestMatch at hrun
  rw [hA, hu, h1, h2, h6] at hrun
  simp only [Bool.true_eq_false, Bool.false_eq_true, if_false, reduceIte] at hrun
  rw [hcand] at hrun
  simp only [Bool.false_eq_true, if_false, reduceIte] at hrun
  rw [hins] at hrun
  simp only [Prod.mk.injEq] at hrun
  obtain ⟨hr, hs⟩ := hrun
  subst hs
  refine ⟨hr.symm, ?_⟩
  intro p hp hid
  apply mem_clearSearching_of_id hp
  rcases hid with h | h <;> simp [h]

/-- C6 witness: the happy-path fixture run clears the searching flag of
both u1 and u2. -/
theorem requestMatch_matched_clears_searching_witness :
    candidates (profilesSetSearching sAB.profiles ("u1") envOk.now) ("u1") =
      pU2 :: [] ∧
    matchesInsert envOk.insertFails sAB.matchRows
      (attemptedRow envOk ("u1") pU2.id) = some [rowW] ∧
    ((requestMatch envOk sAB).1 =
        ⟨200, Body.matched ("Match found!") envOk.newMatchId (viewOf pU2)
          matchScore envOk.now⟩ ∧
      ∀ p ∈ (requestMatch envOk sAB).2.profiles,
        (p.id = ("u1") ∨ p.id = pU2.id) → p.is_searching = false) :=
  ⟨by decide, by decide,
    requestMatch_matched_clears_searching envOk sAB
      ((requestMatch envOk sAB).1) ((requestMatch envOk sAB).2)
      ("u1") pU2 [] [rowW] rfl rfl rfl rfl rfl (by decide) (by decide) rfl⟩

/-- C7: when the step-5 insert succeeds and the step-6 write fails, the
handler still answers 200 matched carrying the new row id, the candidate
view, the score and the creation timestamp, and the new row is stored. -/
theorem requestMatch_step6_failure_still_matched (env : Env) (s : DBState)
    (resp : Response) (s2 : DBState) (u : String) (c : Profile)
    (rest : List Profile) (ms : List MatchRow)
    (hrun : requestMatch env s = (resp, s2))
    (hA : env.authHeaderPresent = true)
    (hu : env.authResult = some u)
    (h1 : env.step1Fails = false)
    (h2 : env.step2Fails = false)
    (hcand : candidates (profilesSetSearching s.profiles u env.now) u = c :: rest)
    (hins : matchesInsert env.insertFails s.matchRows (attemptedRow env u c.id) = some ms)
    (h6 : env.step6Fails = true) :
    resp = ⟨200, Body.matched ("Match found!") env.newMatchId (viewOf c)
      matchScore env.now⟩ ∧
    s2.matchRows = s.matchRows ++ [attemptedRow env u c.id] := by
  unfold requestMatch at hrun
  rw [hA, hu, h1, h2, h6] at hrun
  simp only [Bool.true_eq_false, Bool.false_eq_true, if_false, reduceIte] at hrun
  rw [hcand] at hrun
  simp only [Bool.false_eq_true, if_false, reduceIte] at hrun
  rw [hins] at hrun
  simp only [Prod.mk.injEq] at hrun
  obtain ⟨hr, hs⟩ := hrun
  subst hs
  obtain ⟨hms, hf, hq2, hchk⟩ := matchesInsert_some hins
  exact ⟨hr.symm, hms⟩

/-- C7 witness: with the step-6 write failing, the fixture run still
answers 200 matched and stores the new row. -/
theorem requestMatch_step6_failure_still_matched_witness :
    candidates (profilesSetSearching sAB.profiles ("u1") envStep6Fail.now) ("u1") =
      pU2 :: [] ∧
    matchesInsert envStep6Fail.insertFails sAB.matchRows
      (attemptedRow envStep6Fail ("u1") pU2.id) = some [rowW] ∧
    ((requestMatch envStep6Fail sAB).1 =
        ⟨200, Body.matched ("Match found!") envStep6Fail.newMatchId (viewOf pU2)
          matchScore envStep6Fail.now⟩ ∧
      (requestMatch envStep6Fail sAB).2.matchRows =
        sAB.matchRows ++ [attemptedRow envStep6Fail ("u1") pU2.id]) :=
  ⟨by decide, by decide,
    requestMatch_step6_failure_still_matched envStep6Fail sAB
      ((requestMatch envStep6Fail sAB).1) ((requestMatch envStep6Fail sAB).2)
      ("u1") pU2 [] [rowW] rfl rfl rfl rfl rfl (by decide) (by decide) rfl⟩

/-- C10: when a Match row for the canonical pair of the caller and the
chosen candidate is already stored, whatever its status, the step-5 insert
conflicts with the uniqueness constraint, the handler answers 500 Failed
to create match, and no new row is inserted. -/
theorem requestMatch_duplicate_pair_rejected (env : Env) (s : DBState)
    (resp : Response) (s2 : DBState) (u : String) (c : Profile)
    (rest : List Profile) (m : MatchRow)
    (hrun : requestMatch env s = (resp, s2))
    (hA : env.authHeaderPresent = true)
    (hu : env.authResult = some u)
    (h1 : env.step1Fails = false)
    (h2 : env.step2Fails = false)
    (hcand : candidates (profilesSetSearching s.profiles u env.now) u = c :: rest)
    (hdup : m ∈ s.matchRows)
    (hp1 : m.profile1_id = (canonicalPair u c.id).1)
    (hp2 : m.profile2_id = (canonicalPair u c.id).2) :
    resp = ⟨500, Body.storageError ("Failed to create match")⟩ ∧
    s2.matchRows = s.matchRows := by
  have hins : matchesInsert env.insertFails s.matchRows (attemptedRow env u c.id) = none :=
    matchesInsert_none_of_dup env.insertFails s.matchRows
      (attemptedRow env u c.id) hdup hp1 hp2
  unfold requestMatch at hrun
  rw [hA, hu, h1, h2] at hrun
  simp only [Bool.true_eq_false, Bool.false_eq_true, if_false, reduceIte] at hrun
  rw [hcand] at hrun
  simp only [Bool.false_eq_true, if_false, reduceIte] at hrun
  rw [hins] at hrun
  simp only [Prod.mk.injEq] at hrun
  obtain ⟨hr, hs⟩ := hrun
  subst hs
  exact ⟨hr.symm, rfl⟩

/-- C10 witness: with a rejected-status row for (u1, u2) already stored,
the fixture run fails with 500 and inserts nothing. -/
theorem requestMatch_duplicate_pair_rejected_witness :
    candidates (profilesSetSearching sDup.profiles ("u1") envOk.now) ("u1") =
      pU2 :: [] ∧
    rowPrev ∈ sDup.matchRows ∧
    rowPrev.profile1_id = (canonicalPair ("u1") pU2.id).1 ∧
    rowPrev.profile2_id = (canonicalPair ("u1") pU2.id).2 ∧
    ((requestMatch envOk sDup).1 =
        ⟨500, Body.storageError ("Failed to create match")⟩ ∧
      (requestMatch envOk sDup).2.matchRows = sDup.matchRows) :=
  ⟨by decide, by decide, by decide, by decide,
    requestMatch_duplicate_pair_rejected envOk sDup
      ((requestMatch envOk sDup).1) ((requestMatch envOk sDup).2)
      ("u1") pU2 [] rowPrev rfl rfl rfl rfl rfl (by decide) (by decide)
      (by decide) (by decide)⟩

/-- C3 counterexample: with the Authorization header absent the handler
does not answer 401 Unauthorized; it answers 500 through the catch-all
branch (the source dereferences the missing header and throws), so the
claim that every missing-or-invalid credential yields an Unauthorized
error is false as stated. -/
theorem missing_header_counterexample :
    (requestMatch envNoHeader sAB).1.status = 500 ∧
    (requestMatch envNoHeader sAB).1.status ≠ 401 ∧
    (requestMatch envNoHeader sAB).1.body ≠ Body.unauthorized ("Unauthorized") ∧
    (requestMatch envNoHeader sAB).2 = sAB := by decide

/-- C3 (amended): an invocation with an invalid credential fails 401
Unauthorized; one with a missing Authorization header fails 500 through
the catch-all branch; in both cases no write occurs. -/
theorem requestMatch_unauthenticated (env : Env) (s : DBState)
    (resp : Response) (s2 : DBState)
    (hrun : requestMatch env s = (resp, s2))
    (hbad : env.authHeaderPresent = false ∨ env.authResult = none) :
    s2 = s ∧
    resp = (if env.authHeaderPresent = true
      then ⟨401, Body.unauthorized ("Unauthorized")⟩
      else ⟨500, Body.internalError ("Internal server error") env.nullErrorMsg⟩) := by
  unfold requestMatch at hrun
  by_cases hA : env.authHeaderPresent = false
  · rw [hA] at hrun
    simp only [reduceIte, Prod.mk.injEq] at hrun
    obtain ⟨hr, hs⟩ := hrun
    refine ⟨hs.symm, ?_⟩
    rw [← hr, hA]
    simp
  · have hA2 : env.authHeaderPresent = true := by
      revert hA; cases env.authHeaderPresent <;> simp
    rcases hbad with hb | hb
    · rw [hA2] at hb
      exact absurd hb (by decide)
    · rw [hA2, hb] at hrun
      simp only [Bool.true_eq_false, if_false, reduceIte, Prod.mk.injEq] at hrun
      obtain ⟨hr, hs⟩ := hrun
      refine ⟨hs.symm, ?_⟩
      rw [← hr, hA2]
      simp

/-- C3 witness: a present header with a credential that does not verify
yields 401 and no state change. -/
theorem requestMatch_unauthenticated_witness :
    (envBadToken.authHeaderPresent = false ∨ envBadToken.authResult = none) ∧
    ((requestMatch envBadToken sAB).2 = sAB ∧
      (requestMatch envBadToken sAB).1 =
        (if envBadToken.authHeaderPresent = true
          then ⟨401, Body.unauthorized ("Unauthorized")⟩
          else ⟨500, Body.internalError ("Internal server error")
            envBadToken.nullErrorMsg⟩)) :=
  ⟨Or.inr rfl,
    requestMatch_unauthenticated envBadToken sAB
      ((requestMatch envBadToken sAB).1) ((requestMatch envBadToken sAB).2)
      rfl (Or.inr rfl)⟩

/-- C8 counterexample: the catch-all 500 response is not limited to a
generic message: its details field carries the text of the internal fault,
and two runs that differ only in the internal fault text are
distinguishable by the caller. -/
theorem internal_details_leak_counterexample :
    (requestMatch envNoHeader sAB).1.body =
      Body.internalError ("Internal server error")
        ("TypeError: Cannot read properties of null (reading replace)") ∧
    (requestMatch envNoHeader2 sAB).1.body ≠ (requestMatch envNoHeader sAB).1.body := by
  decide

/-- C8 (amended): the unclassified fault path answers 500 with a fixed
generic error field, but the details field of the body carries the message
of the internal fault (no stack trace, only the message string); no write
occurs. -/
theorem requestMatch_internal_error_details (env : Env) (s : DBState)
    (resp : Response) (s2 : DBState)
    (hrun : requestMatch env s = (resp, s2))
    (hb : env.authHeaderPresent = false) :
    resp = ⟨500, Body.internalError ("Internal server error") env.nullErrorMsg⟩ ∧
    s2 = s := by
  unfold requestMatch at hrun
  rw [hb] at hrun
  simp only [reduceIte, Prod.mk.injEq] at hrun
  obtain ⟨hr, hs⟩ := hrun
  exact ⟨hr.symm, hs.symm⟩

/-- C8 witness: the missing-header fixture run answers 500 with the generic
error field and the fault message in details. -/
theorem requestMatch_internal_error_details_witness :
    envNoHeader.authHeaderPresent = false ∧
    ((requestMatch envNoHeader sAB).1 =
        ⟨500, Body.internalError ("Internal server error")
          envNoHeader.nullErrorMsg⟩ ∧
      (requestMatch envNoHeader sAB).2 = sAB) :=
  ⟨rfl,
    requestMatch_internal_error_details envNoHeader sAB
      ((requestMatch envNoHeader sAB).1) ((requestMatch envNoHeader sAB).2)
      rfl rfl⟩

/-- C9 counterexample: the caller is never checked for is_active, so a
Match row involving an inactive profile is created: with u1 inactive and
u2 active and searching, the run succeeds and stores a row naming u1. -/
theorem inactive_caller_match_counterexample :
    (∀ p ∈ sInactive.profiles, p.id = "u1" → p.is_active = false) ∧
    (requestMatch envOk sInactive).1.status = 200 ∧
    ∃ r ∈ (requestMatch envOk sInactive).2.matchRows,
      (r.profile1_id = "u1" ∨ r.profile2_id = "u1") := by decide

/-- C9 (amended): the selected candidate of any Matched outcome is an
active profile (the step-2 filter demands is_active = true), but the
caller side carries no such guarantee. -/
theorem requestMatch_candidate_active (env : Env) (s : DBState)
    (resp : Response) (s2 : DBState) (mid : String) (mu : MatchedUserView)
    (q : ℚ) (ts : String)
    (hrun : requestMatch env s = (resp, s2))
    (hm : resp.body = Body.matched ("Match found!") mid mu q ts) :
    ∃ p ∈ s.profiles, p.id = mu.id ∧ p.is_active = true := by
  unfold requestMatch at hrun
  split at hrun
  · injection hrun with hr hs
    subst hr; simp at hm
  · split at hrun
    · injection hrun with hr hs
      subst hr; simp at hm
    · split at hrun
      · injection hrun with hr hs
        subst hr; simp at hm
      · split at hrun
        · injection hrun with hr hs
          subst hr; simp at hm
        · split at hrun
          · injection hrun with hr hs
            subst hr; simp at hm
          · rename_i c rest hcand
            split at hrun
            · injection hrun with hr hs
              subst hr; simp at hm
            · injection hrun with hr hs
              subst hr
              have hmu : mu = viewOf c := by
                injection hm with h1 h2 h3 h4 h5
                exact h3.symm
              subst hmu
              obtain ⟨hcmem, hsearch, hactive, hne⟩ := candidates_head_spec hcand
              obtain ⟨p0, hp0, hid0, hact0⟩ := mem_setSearching_src hcmem
              exact ⟨p0, hp0, hid0, hact0.trans hactive⟩

/-- C9 witness: in the inactive-caller fixture run the matched user u2 is
an active profile of the original table. -/
theorem requestMatch_candidate_active_witness :
    (requestMatch envOk sInactive).1.body =
      Body.matched ("Match found!") ("m1") (viewOf pU2) matchScore ("t1") ∧
    ∃ p ∈ sInactive.profiles, p.id = (viewOf pU2).id ∧ p.is_active = true :=
  ⟨by decide,
    requestMatch_candidate_active envOk sInactive
      ((requestMatch envOk sInactive).1) ((requestMatch envOk sInactive).2)
      ("m1") (viewOf pU2) matchScore ("t1") rfl (by decide)⟩
